import Mathlib

/-
Verification of the on-chain credit scoring pipeline.

The definitions below are a shallow embedding of the Python sources:
  api/main.py      — feature extraction, scoring, decision, recommendation
  src/trajectory.py — snapshot diffing (trajectory)
Machine floats are modelled by rationals; Python integer floor division and
timedelta day counts are modelled by Int.fdiv; fallible values (pandas NaN)
are modelled by Option.
-/

/-- One upstream ERC-20 transfer row, as consumed by the feature extractors
(api/main.py keeps these as dicts with at least timeStamp, tokenSymbol,
from, to). -/
structure Transfer where
  timeStamp : ℤ
  tokenSymbol : Option String
  addrFrom : String
  addrTo : String
  deriving DecidableEq

/-- Embeds wallet_age_days_from_erc20 (api/main.py lines 132-136): 0 for an
empty list, else the timedelta day count between now and the first (oldest,
ascending sort) transfer timestamp.  Python timedelta .days floors toward
negative infinity, hence Int.fdiv. -/
def wallet_age_days_from_erc20 (now : ℤ) (transfers : List Transfer) : ℤ :=
  match transfers with
  | [] => 0
  | t :: _ => Int.fdiv (now - t.timeStamp) 86400

/-- Embeds token_diversity (api/main.py lines 146-147): number of distinct
truthy (non-empty) token symbols. -/
def token_diversity (transfers : List Transfer) : ℕ :=
  (((transfers.filterMap (fun t => t.tokenSymbol)).filter (fun s => s ≠ "")).dedup).length

/-- Calendar day index (UTC) of a unix timestamp: floor division by 86400. -/
def dayIdxOf (t : ℤ) : ℤ := Int.fdiv t 86400

/-- Weekly bucket index matching pandas resample with rule W (weeks run
Monday to Sunday, right-closed at Sunday; unix day 3 = 1970-01-04 was a
Sunday, so day d falls in week (d+3)/7 with floor division). -/
def weekIdxOf (t : ℤ) : ℤ := Int.fdiv (dayIdxOf t + 3) 7

/-- Weekly activity counts of a list of timestamps, one bucket per week from
the earliest to the latest observed week inclusive (pandas resample fills
the gaps with zero-count buckets). -/
def weeklyCounts (ts : List ℤ) : List ℕ :=
  match ts with
  | [] => []
  | t :: rest =>
    let ws := (t :: rest).map weekIdxOf
    let lo := ws.foldl min (weekIdxOf t)
    let hi := ws.foldl max (weekIdxOf t)
    (List.range (hi - lo + 1).toNat).map (fun k => ws.count (lo + (k : ℤ)))

/-- Arithmetic mean of a list of counts, as a rational. -/
def listMean (xs : List ℕ) : ℚ := (xs.sum : ℚ) / (xs.length : ℚ)

/-- Sample variance (denominator n-1, the pandas std default ddof=1). -/
def sampleVariance (xs : List ℕ) : ℚ :=
  ((xs.map (fun x => ((x : ℚ) - listMean xs) ^ 2)).sum) / ((xs.length : ℚ) - 1)

/-- Rational stand-in for the float square root: exact on rationals that are
squares (numerator and reduced denominator both perfect squares), which
covers every evaluation point used below. -/
def sqrtQ (q : ℚ) : ℚ := (Nat.sqrt q.num.toNat : ℚ) / (Nat.sqrt q.den : ℚ)

/-- Embeds activity_consistency (api/main.py lines 138-144): 0 for an empty
list; otherwise the sample standard deviation of the weekly activity counts
divided by their mean (coefficient of variation) when the mean is positive,
else 0.  When only one weekly bucket exists, the pandas sample std is NaN,
modelled here as none. -/
def activity_consistency (transfers : List Transfer) : Option ℚ :=
  if transfers.isEmpty then some 0
  else
    let counts := weeklyCounts (transfers.map (fun t => t.timeStamp))
    if counts.length ≤ 1 then none
    else if 0 < listMean counts then
      some (sqrtQ (sampleVariance counts) / listMean counts)
    else some 0

-- -------------------------
-- Credit logic (api/main.py lines 186-294)
-- -------------------------

/-- Wallet-age component of risk_score (api/main.py lines 193-199). -/
def agePoints (wallet_age_days : ℤ) : ℤ :=
  if wallet_age_days > 365 then 40
  else if wallet_age_days > 90 then 25
  else 10

/-- Consistency component of risk_score (api/main.py lines 201-210); only
evaluated when token_count > 5. -/
def consistencyPoints (consistency : ℚ) (token_count : ℕ) : ℤ :=
  if token_count > 5 then
    if consistency < 1 then 30
    else if consistency < 2 then 15
    else 5
  else 0

/-- Token-diversity component of risk_score (api/main.py lines 212-218). -/
def tokenPoints (token_count : ℕ) : ℤ :=
  if token_count > 10 then 30
  else if token_count > 3 then 15
  else 5

/-- Counterparty component of risk_score (api/main.py lines 220-226). -/
def cpPoints (counterparty_count : ℕ) : ℤ :=
  if counterparty_count > 200 then 10
  else if counterparty_count > 50 then 7
  else if counterparty_count > 10 then 3
  else 0

/-- Stablecoin-ratio component of risk_score (api/main.py lines 228-232). -/
def stablePoints (stable_ratio : ℚ) : ℤ :=
  if stable_ratio > 0.60 then 10
  else if stable_ratio > 0.30 then 5
  else 0

/-- Normal-transaction component of risk_score (api/main.py lines 236-239). -/
def normalPoints (normal_tx_count : ℕ) : ℤ :=
  if normal_tx_count > 200 then 6
  else if normal_tx_count > 50 then 3
  else 0

/-- Internal-transaction component of risk_score (api/main.py lines 241-244). -/
def internalPoints (internal_tx_count : ℕ) : ℤ :=
  if internal_tx_count > 50 then 6
  else if internal_tx_count > 10 then 3
  else 0

/-- Embeds risk_score (api/main.py lines 186-246): an early return of 20
when the cold-start gate fires, else the sum of the seven additive blocks
capped at 100. -/
def risk_score (wallet_age_days : ℤ) (consistency : ℚ) (token_count : ℕ)
    (counterparty_count : ℕ) (stable_ratio : ℚ)
    (normal_tx_count internal_tx_count : ℕ) : ℤ :=
  if wallet_age_days < 30 ∨ token_count = 0 then 20
  else
    min (agePoints wallet_age_days
          + consistencyPoints consistency token_count
          + tokenPoints token_count
          + cpPoints counterparty_count
          + stablePoints stable_ratio
          + normalPoints normal_tx_count
          + internalPoints internal_tx_count) 100

/-- Risk tier labels; the UNKNOWN label appears in the specification only
and is never produced by the code. -/
inductive Tier where
  | LOW
  | MEDIUM
  | HIGH
  | UNKNOWN
  deriving DecidableEq

/-- Embeds risk_tier (api/main.py lines 270-276). -/
def risk_tier (score : ℤ) : Tier :=
  if score ≥ 75 then Tier.LOW
  else if score ≥ 45 then Tier.MEDIUM
  else Tier.HIGH

/-- Credit decision record (api/main.py lines 248-266 dicts). -/
structure Decision where
  status : String
  reason : String
  minRequiredAgeDays : Option ℤ
  minRequiredTokenActivity : Option ℤ
  deriving DecidableEq

/-- Embeds credit_decision (api/main.py lines 248-266). -/
def credit_decision (wallet_age_days : ℤ) (token_count : ℕ) (score : ℤ)
    (tier : Tier) : Decision :=
  if wallet_age_days < 30 ∨ token_count < 1 then
    ⟨"DENY", "insufficient_history", some 30, some 1⟩
  else if tier = Tier.HIGH then ⟨"DENY", "high_risk", none, none⟩
  else if tier = Tier.MEDIUM then ⟨"LIMIT", "medium_risk", none, none⟩
  else ⟨"ALLOW", "ok", none, none⟩

-- -------------------------
-- Collateral recommendation (api/main.py lines 278-336)
-- -------------------------

/-- One tier-specific base-terms row of the PROFILES table. -/
structure BaseTerms where
  max_ltv : ℚ
  apr : ℚ
  collateral_factor : ℚ
  deriving DecidableEq

/-- Embeds the PROFILES table (api/main.py lines 278-294). -/
def PROFILES : List (String × List (String × BaseTerms)) :=
  [("conservative",
     [("low", ⟨0.60, 0.09, 1.4⟩),
      ("medium", ⟨0.45, 0.13, 1.7⟩),
      ("high", ⟨0.25, 0.20, 2.2⟩)]),
   ("aave",
     [("low", ⟨0.65, 0.08, 1.3⟩),
      ("medium", ⟨0.50, 0.12, 1.6⟩),
      ("high", ⟨0.25, 0.20, 2.2⟩)]),
   ("morpho",
     [("low", ⟨0.70, 0.075, 1.25⟩),
      ("medium", ⟨0.55, 0.11, 1.55⟩),
      ("high", ⟨0.30, 0.18, 2.0⟩)])]

/-- Embeds the tier_key selection (api/main.py line 310). -/
def tierKeyOf (tier : Tier) : String :=
  if tier = Tier.LOW then "low"
  else if tier = Tier.MEDIUM then "medium"
  else "high"

/-- ASCII lowercase on the character list, modelling the Python str.lower
call (extensionally the same as String.toLower, stated over the character
data so that it evaluates by kernel reduction). -/
def strToLower (s : String) : String := String.mk (s.data.map Char.toLower)

/-- Profile-name normalisation of collateral_recommendation (api/main.py
lines 306-308): a missing or empty name defaults to conservative, the name
is lowercased, and a name absent from PROFILES falls back to conservative. -/
def resolveProfile (profile : Option String) : String :=
  let p0 := match profile with
    | none => "conservative"
    | some s => if s = "" then "conservative" else s
  let p1 := strToLower p0
  if (PROFILES.lookup p1).isSome then p1 else "conservative"

/-- Base-terms lookup PROFILES[profile][tier_key] (api/main.py line 311);
total via a default that is never reached for table profiles. -/
def baseOf (p : String) (tier : Tier) : BaseTerms :=
  (((PROFILES.lookup p).getD []).lookup (tierKeyOf tier)).getD ⟨0, 0, 0⟩

/-- LTV after the three behavioural adjustments and the final clamp
(api/main.py lines 322-335), applied in source order to the base LTV. -/
def adjustedLtv (base : ℚ) (consistency stable_ratio : ℚ)
    (normal_tx_count internal_tx_count : ℕ) : ℚ :=
  let l1 := if stable_ratio > 0.5 then base + 0.05 else base
  let l2 := if consistency > 2 then l1 - 0.05 else l1
  let l3 := if internal_tx_count > normal_tx_count then l2 - 0.05 else l2
  max 0.15 (min l3 0.75)

/-- Rationale lines appended by the behavioural adjustments, in source
order (api/main.py lines 322-333). -/
def adjustmentRationale (consistency stable_ratio : ℚ)
    (normal_tx_count internal_tx_count : ℕ) : List String :=
  (if stable_ratio > 0.5 then ["High stablecoin usage (+LTV)"] else [])
    ++ (if consistency > 2 then ["Highly irregular activity (-LTV)"] else [])
    ++ (if internal_tx_count > normal_tx_count then
          ["High contract interaction risk (-LTV)"] else [])

/-- Recommendation record (api/main.py lines 313-320); collateral factor
and APR are optional because the deny override nulls them. -/
structure Recommendation where
  profile : Option String
  max_ltv : ℚ
  collateral_factor : Option ℚ
  suggested_interest_rate_apr : Option ℚ
  policy : String
  rationale : List String
  deriving DecidableEq

/-- Embeds collateral_recommendation (api/main.py lines 297-336): resolve
the profile, read the tier base terms, apply the behavioural adjustments to
the LTV and clamp it.  (The code past the first return, lines 339-385, is
unreachable and not modelled.) -/
def collateral_recommendation (score : ℤ) (tier : Tier)
    (consistency stable_ratio : ℚ)
    (normal_tx_count internal_tx_count : ℕ)
    (profile : Option String) : Recommendation :=
  let p := resolveProfile profile
  let base := baseOf p tier
  { profile := some p
    max_ltv := adjustedLtv base.max_ltv consistency stable_ratio
                 normal_tx_count internal_tx_count
    collateral_factor := some base.collateral_factor
    suggested_interest_rate_apr := some base.apr
    policy := tierKeyOf tier
    rationale := ["Base policy from profile " ++ p]
                   ++ adjustmentRationale consistency stable_ratio
                        normal_tx_count internal_tx_count }

/-- The hard-gate override recommendation (api/main.py lines 688-695):
zero LTV, null collateral factor and APR, deny policy, with the raw
requested profile echoed back. -/
def denyOverrideRecommendation (profile : Option String) : Recommendation :=
  ⟨profile, 0, none, none, "deny",
   ["Denied due to insufficient history or elevated risk."]⟩

/-- Embeds the decision/recommendation tail of compute_wallet_result
(api/main.py lines 666-695), starting from the already-extracted feature
values: score, tier, decision, recommendation, then the DENY override. -/
def compute_wallet_result_core (wallet_age_days : ℤ) (consistency : ℚ)
    (token_count counterparty_count : ℕ) (stable_ratio : ℚ)
    (normal_tx_count internal_tx_count : ℕ)
    (profile : Option String) : Decision × Recommendation :=
  let score := risk_score wallet_age_days consistency token_count
                 counterparty_count stable_ratio normal_tx_count
                 internal_tx_count
  let tier := risk_tier score
  let decision := credit_decision wallet_age_days token_count score tier
  let recommendation := collateral_recommendation score tier consistency
                          stable_ratio normal_tx_count internal_tx_count
                          profile
  (decision,
   if decision.status = "DENY" then denyOverrideRecommendation profile
   else recommendation)

-- -------------------------
-- Trajectory (src/trajectory.py)
-- -------------------------

/-- The five tracked metrics of a feature snapshot as read by
compute_trajectory (src/trajectory.py lines 13-19). -/
structure TrajSnapshot where
  tx_count : ℚ
  stablecoin_ratio : ℚ
  unique_counterparties : ℚ
  token_diversity : ℚ
  protocol_interactions : ℚ
  deriving DecidableEq

/-- Per-metric deltas of a trajectory diff. -/
structure TrajDeltas where
  tx_count : ℚ
  stablecoin_ratio : ℚ
  unique_counterparties : ℚ
  token_diversity : ℚ
  protocol_interactions : ℚ
  deriving DecidableEq

/-- Trajectory result (src/trajectory.py lines 37-41). -/
structure Trajectory where
  trend : String
  deltas : TrajDeltas
  drivers : List String
  deriving DecidableEq

/-- Embeds pct_change (src/trajectory.py lines 3-6): zero for a zero
baseline, else the relative change. -/
def pct_change (curr prev : ℚ) : ℚ :=
  if prev = 0 then 0 else (curr - prev) / prev

/-- Embeds compute_trajectory (src/trajectory.py lines 9-41): per-metric
pct_change deltas, threshold-rule drivers, and the trend label. -/
def compute_trajectory (curr prev : TrajSnapshot) : Trajectory :=
  let deltas : TrajDeltas :=
    ⟨pct_change curr.tx_count prev.tx_count,
     pct_change curr.stablecoin_ratio prev.stablecoin_ratio,
     pct_change curr.unique_counterparties prev.unique_counterparties,
     pct_change curr.token_diversity prev.token_diversity,
     pct_change curr.protocol_interactions prev.protocol_interactions⟩
  let drivers :=
    (if deltas.stablecoin_ratio < -0.25 then
       ["stablecoin usage dropping fast"] else [])
      ++ (if deltas.unique_counterparties > 0.50 then
            ["counterparties spiking"] else [])
      ++ (if deltas.tx_count > 1 then ["tx activity spike"] else [])
  let trend :=
    if drivers.length ≥ 2 then "deteriorating"
    else if deltas.stablecoin_ratio > 0.20 then "improving"
    else "stable"
  ⟨trend, deltas, drivers⟩

-- -------------------------
-- Window paginator (spec section 4.3)
-- -------------------------

/-- Upstream page size (spec: page_size fixed at 1000). -/
def PAGE_SIZE : ℕ := 1000

/-- Upstream page-count ceiling (spec: page_index bounded by 10). -/
def MAX_PAGES : ℕ := 10

/-- Modelled from the spec: the loop body of WindowPaginator.fetch_window
(spec section 4.3); no paginated data-acquisition code exists under src/
(the fetchers in api/main.py issue a single unpaginated request).  The
remaining page indices stand for the loop counter 1..MAX_PAGES; the result
is (accumulated in-window rows, truncated flag, pages fetched).  A row is
just its timestamp.  Exhausting the page budget with every page still full
and no stop condition marks truncation; an empty page, an early-stop page
(some timestamp below the window start under descending sort) or a short
page stops normally. -/
def fetchWindowLoop (pages : ℕ → List ℤ) (startTs endTs : ℤ) :
    List ℕ → List ℤ → ℕ → List ℤ × Bool × ℕ
  | [], acc, fetched => (acc, true, fetched)
  | p :: rest, acc, fetched =>
    let rows := pages p
    if rows.isEmpty then (acc, false, fetched + 1)
    else
      let acc2 := acc ++ rows.filter (fun t => decide (startTs ≤ t ∧ t ≤ endTs))
      if rows.any (fun t => decide (t < startTs)) then (acc2, false, fetched + 1)
      else if rows.length < PAGE_SIZE then (acc2, false, fetched + 1)
      else fetchWindowLoop pages startTs endTs rest acc2 (fetched + 1)

/-- Modelled from the spec: WindowPaginator.fetch_window (spec section 4.3)
over a simulated upstream, starting at page 1 with an empty accumulator. -/
def fetch_window (pages : ℕ → List ℤ) (startTs endTs : ℤ) :
    List ℤ × Bool × ℕ :=
  fetchWindowLoop pages startTs endTs (List.range' 1 MAX_PAGES) [] 0

-- -------------------------
-- Spec-side formulas for refinement comparison
-- -------------------------

/-- Round to four decimal places (round half up), modelling the rounding
named in the specification. -/
def round4 (q : ℚ) : ℚ := ((⌊q * 10000 + 1 / 2⌋ : ℤ) : ℚ) / 10000

/-- Formalisation of the claim C5 / spec section 4.4 consistency formula,
for comparison with activity_consistency: distinct UTC calendar days among
the records divided by max(1, window_days), rounded to four decimals. -/
def specConsistency (transfers : List Transfer) (window_days : ℕ) : ℚ :=
  round4 ((((transfers.map (fun t => dayIdxOf t.timeStamp)).dedup).length : ℚ)
    / max 1 (window_days : ℚ))

-- -------------------------
-- Helper lemmas
-- -------------------------

/-- Bounds of the wallet-age score component. -/
lemma agePoints_bounds (a : ℤ) : 10 ≤ agePoints a ∧ agePoints a ≤ 40 := by
  unfold agePoints
  refine ⟨?_, ?_⟩ <;> (repeat' split) <;> norm_num

/-- Bounds of the consistency score component. -/
lemma consistencyPoints_bounds (c : ℚ) (tc : ℕ) :
    0 ≤ consistencyPoints c tc ∧ consistencyPoints c tc ≤ 30 := by
  unfold consistencyPoints
  refine ⟨?_, ?_⟩ <;> (repeat' split) <;> norm_num

/-- Bounds of the token-diversity score component. -/
lemma tokenPoints_bounds (tc : ℕ) : 5 ≤ tokenPoints tc ∧ tokenPoints tc ≤ 30 := by
  unfold tokenPoints
  refine ⟨?_, ?_⟩ <;> (repeat' split) <;> norm_num

/-- Bounds of the counterparty score component. -/
lemma cpPoints_bounds (c : ℕ) : 0 ≤ cpPoints c ∧ cpPoints c ≤ 10 := by
  unfold cpPoints
  refine ⟨?_, ?_⟩ <;> (repeat' split) <;> norm_num

/-- Bounds of the stablecoin-ratio score component. -/
lemma stablePoints_bounds (r : ℚ) : 0 ≤ stablePoints r ∧ stablePoints r ≤ 10 := by
  unfold stablePoints
  refine ⟨?_, ?_⟩ <;> (repeat' split) <;> norm_num

/-- Bounds of the normal-transaction score component. -/
lemma normalPoints_bounds (n : ℕ) : 0 ≤ normalPoints n ∧ normalPoints n ≤ 6 := by
  unfold normalPoints
  refine ⟨?_, ?_⟩ <;> (repeat' split) <;> norm_num

/-- Bounds of the internal-transaction score component. -/
lemma internalPoints_bounds (n : ℕ) : 0 ≤ internalPoints n ∧ internalPoints n ≤ 6 := by
  unfold internalPoints
  refine ⟨?_, ?_⟩ <;> (repeat' split) <;> norm_num

/-- Monotonicity of the counterparty score component. -/
lemma cpPoints_mono {c1 c2 : ℕ} (h : c1 ≤ c2) : cpPoints c1 ≤ cpPoints c2 := by
  unfold cpPoints
  repeat' split
  all_goals omega

/-- Nonnegativity of the rational square-root stand-in. -/
lemma sqrtQ_nonneg (q : ℚ) : 0 ≤ sqrtQ q := by
  unfold sqrtQ
  exact div_nonneg (Nat.cast_nonneg _) (Nat.cast_nonneg _)

/-- Loop bound of the paginator: it fetches at most one page per remaining
page index. -/
lemma fetchWindowLoop_fetched_le (pages : ℕ → List ℤ) (s e : ℤ) :
    ∀ (l : List ℕ) (acc : List ℤ) (f : ℕ),
      (fetchWindowLoop pages s e l acc f).2.2 ≤ f + l.length := by
  intro l
  induction l with
  | nil => intro acc f; simp [fetchWindowLoop]
  | cons p rest ih =>
    intro acc f
    dsimp only [fetchWindowLoop]
    split
    · simp
    · split
      · simp
      · split
        · simp
        · have := ih (acc ++ (pages p).filter (fun t => decide (s ≤ t ∧ t ≤ e))) (f + 1)
          simp only [List.length_cons]
          omega

/-- Truncation characterisation of the paginator loop over an upstream with
exactly N full pages: the truncated flag is set iff every remaining page
index is backed by a full page and no fetched page triggers the early stop
(a row strictly below the window start under descending sort). -/
lemma fetchWindowLoop_truncated (pages : ℕ → List ℤ) (s e : ℤ) (N : ℕ)
    (hfull : ∀ i, 1 ≤ i → i ≤ N → (pages i).length = PAGE_SIZE)
    (hempty : ∀ i, N < i → pages i = []) :
    ∀ (k p : ℕ) (acc : List ℤ) (f : ℕ), 1 ≤ p → p ≤ N + 1 →
      ((fetchWindowLoop pages s e (List.range' p k) acc f).2.1 = true ↔
        (p + k ≤ N + 1 ∧ ∀ i, p ≤ i → i < p + k → ∀ t ∈ pages i, s ≤ t)) := by
  intro k
  induction k with
  | zero =>
    intro p acc f h1 h2
    dsimp only [List.range', fetchWindowLoop]
    constructor
    · intro _
      refine ⟨by omega, ?_⟩
      intro i hi1 hi2 t ht
      exact absurd hi2 (by omega)
    · intro _
      rfl
  | succ k ih =>
    intro p acc f h1 h2
    rw [List.range'_succ]
    by_cases hp : p ≤ N
    · have hlen : (pages p).length = PAGE_SIZE := hfull p h1 hp
      have hne : (pages p).isEmpty = false := by
        rw [List.isEmpty_eq_false_iff_exists_mem]
        rcases List.exists_mem_of_length_pos (by rw [hlen]; decide) with ⟨x, hx⟩
        exact ⟨x, hx⟩
      have hshort : ¬ ((pages p).length < PAGE_SIZE) := by omega
      by_cases hstop : ((pages p).any (fun t => decide (t < s))) = true
      · rcases List.any_eq_true.mp hstop with ⟨t0, ht0, hts0⟩
        have hlt0 : t0 < s := of_decide_eq_true hts0
        dsimp only [fetchWindowLoop]
        rw [hne]
        simp only [Bool.false_eq_true, if_false]
        rw [if_pos hstop]
        constructor
        · intro h
          exact absurd h Bool.false_ne_true
        · rintro ⟨hk, hall⟩
          exact absurd (hall p le_rfl (by omega) t0 ht0) (not_le.mpr hlt0)
      · rw [Bool.not_eq_true] at hstop
        have hforall : ∀ t ∈ pages p, s ≤ t := by
          intro t ht
          by_contra hlt
          have hx : (pages p).any (fun t => decide (t < s)) = true :=
            List.any_eq_true.mpr ⟨t, ht, decide_eq_true (not_le.mp hlt)⟩
          rw [hstop] at hx
          exact Bool.false_ne_true hx
        dsimp only [fetchWindowLoop]
        rw [hne]
        simp only [Bool.false_eq_true, if_false]
        rw [hstop]
        simp only [Bool.false_eq_true, if_false]
        rw [if_neg hshort]
        rw [ih (p + 1) (acc ++ (pages p).filter (fun t => decide (s ≤ t ∧ t ≤ e)))
          (f + 1) (by omega) (by omega)]
        constructor
        · rintro ⟨hk, hall⟩
          refine ⟨by omega, ?_⟩
          intro i hi1 hi2 t ht
          rcases eq_or_lt_of_le hi1 with heq | hlt
          · rw [← heq] at ht
            exact hforall t ht
          · exact hall i (by omega) (by omega) t ht
        · rintro ⟨hk, hall⟩
          refine ⟨by omega, ?_⟩
          intro i hi1 hi2 t ht
          exact hall i (by omega) (by omega) t ht
    · have hemp : pages p = [] := hempty p (by omega)
      dsimp only [fetchWindowLoop]
      rw [hemp]
      simp only [List.isEmpty_nil, if_true]
      constructor
      · intro h
        exact absurd h Bool.false_ne_true
      · rintro ⟨hk, _⟩
        exact absurd hk (by omega)

/-- Fallback behaviour of the profile-name normalisation: a missing, empty
or unknown (after lowercasing) profile name resolves to conservative. -/
lemma resolveProfile_fallback (profile : Option String)
    (h : profile = none ∨ profile = some "" ∨
      (PROFILES.lookup (strToLower (profile.getD ""))).isNone = true) :
    resolveProfile profile = "conservative" := by
  rcases h with h | h | h
  · subst h; decide
  · subst h; decide
  · match profile with
    | none => decide
    | some s =>
      by_cases hs : s = ""
      · subst hs; decide
      · simp only [Option.getD] at h
        rw [Option.isNone_iff_eq_none] at h
        dsimp only [resolveProfile]
        rw [if_neg hs]
        rw [h]
        simp

-- -------------------------
-- Claim theorems
-- -------------------------

/-- C1: for every feature input with wallet_age_days below 30 or with zero
token activity, the pipeline credit decision is DENY, independent of every
other feature value. -/
theorem c1_hard_gate_decision_deny (a : ℤ) (c : ℚ) (tc cp : ℕ) (sr : ℚ)
    (nt it : ℕ) (profile : Option String) (h : a < 30 ∨ tc = 0) :
    (compute_wallet_result_core a c tc cp sr nt it profile).1.status = "DENY" := by
  dsimp only [compute_wallet_result_core]
  unfold credit_decision
  rw [if_pos (by omega : a < 30 ∨ tc < 1)]

/-- Witness for C1 at a concrete cold-start input (age 0, five tokens). -/
theorem c1_hard_gate_decision_deny_witness :
    (compute_wallet_result_core 0 0 5 0 0 0 0 none).1.status = "DENY" :=
  c1_hard_gate_decision_deny 0 0 5 0 0 0 0 none (Or.inl (by norm_num))

/-- C2: for every combination of feature inputs, the integer score returned
by risk_score lies between 0 and 100. -/
theorem c2_risk_score_bounds (a : ℤ) (c : ℚ) (tc cp : ℕ) (sr : ℚ) (nt it : ℕ) :
    0 ≤ risk_score a c tc cp sr nt it ∧ risk_score a c tc cp sr nt it ≤ 100 := by
  unfold risk_score
  split
  · norm_num
  · constructor
    · refine le_min ?_ (by norm_num)
      have h1 := agePoints_bounds a
      have h2 := consistencyPoints_bounds c tc
      have h3 := tokenPoints_bounds tc
      have h4 := cpPoints_bounds cp
      have h5 := stablePoints_bounds sr
      have h6 := normalPoints_bounds nt
      have h7 := internalPoints_bounds it
      linarith [h1.1, h2.1, h3.1, h4.1, h5.1, h6.1, h7.1]
    · exact min_le_right _ _

/-- C3 counterexample: a total fetch failure yields empty lists (the
fetchers return an empty result after their retry loop), from which the
pipeline computes wallet age 0 and zero tokens, hence score 20 and the
numeric tier HIGH — not UNKNOWN as the claim states. -/
theorem c3_counterexample :
    wallet_age_days_from_erc20 0 [] = 0 ∧ token_diversity [] = 0 ∧
    risk_tier (risk_score 0 0 0 0 0 0 0) = Tier.HIGH ∧ Tier.HIGH ≠ Tier.UNKNOWN := by
  decide

/-- C3 amended: the code has no data_ok flag and risk_tier is a total
function into the numeric tiers; the tier is never UNKNOWN for any score,
including the score produced by a failed fetch. -/
theorem c3_tier_never_unknown (s : ℤ) : risk_tier s ≠ Tier.UNKNOWN := by
  unfold risk_tier
  repeat' split
  all_goals simp

/-- C4 counterexample: with now = 0 and a first transfer timestamp one day
in the future, wallet_age_days_from_erc20 returns -1, which is negative and
differs from the claimed max(0, (now - first_ts) // 86400) = 0. -/
theorem c4_counterexample :
    wallet_age_days_from_erc20 0 [⟨86400, none, "a", "b"⟩] = -1 ∧
    (-1 : ℤ) ≠ max 0 (Int.fdiv (0 - 86400) 86400) := by
  decide

/-- C4 amended: for a nonempty transfer history whose first timestamp does
not lie in the future, wallet_age_days equals max(0, (now - first_ts) //
86400) and is nonnegative; the code performs no clamping, so the claim
fails only for a future first timestamp. -/
theorem c4_wallet_age_eq_max (now : ℤ) (t : Transfer) (rest : List Transfer)
    (h : t.timeStamp ≤ now) :
    wallet_age_days_from_erc20 now (t :: rest)
        = max 0 (Int.fdiv (now - t.timeStamp) 86400) ∧
    0 ≤ wallet_age_days_from_erc20 now (t :: rest) := by
  have h0 : (0:ℤ) ≤ now - t.timeStamp := by omega
  have hnn : 0 ≤ Int.fdiv (now - t.timeStamp) 86400 := Int.fdiv_nonneg h0 (by norm_num)
  unfold wallet_age_days_from_erc20
  exact ⟨(max_eq_right hnn).symm, hnn⟩

/-- Witness for C4 amended at now = two days, first timestamp 0. -/
theorem c4_wallet_age_eq_max_witness :
    wallet_age_days_from_erc20 172800 [⟨0, none, "a", "b"⟩]
        = max 0 (Int.fdiv (172800 - 0) 86400) ∧
    0 ≤ wallet_age_days_from_erc20 172800 [⟨0, none, "a", "b"⟩] :=
  c4_wallet_age_eq_max 172800 ⟨0, none, "a", "b"⟩ [] (by decide)

/-- C5 counterexample: two transfers on distinct days in adjacent weeks.
The code (coefficient of variation of the weekly counts [1, 1]) yields 0,
while the claimed formula (2 distinct days over a 30-day window, rounded to
4 decimals) yields 667/10000. -/
theorem c5_counterexample :
    activity_consistency [⟨0, none, "a", "b"⟩, ⟨604800, none, "a", "b"⟩] = some 0 ∧
    specConsistency [⟨0, none, "a", "b"⟩, ⟨604800, none, "a", "b"⟩] 30 = 667 / 10000 ∧
    (0 : ℚ) ≠ 667 / 10000 := by
  refine ⟨?_, ?_, by norm_num⟩
  · have h : weeklyCounts [0, 604800] = [1, 1] := by decide
    simp [activity_consistency, h, listMean, sampleVariance, sqrtQ]
  · have h7 : Int.fdiv (604800:ℤ) 86400 = 7 := rfl
    have h0 : Int.fdiv (0:ℤ) 86400 = 0 := rfl
    simp [specConsistency, dayIdxOf, h7, h0, round4]
    norm_num

/-- C5 amended: activity_consistency is the sample-std-over-mean ratio of
the weekly activity counts, not the distinct-days-over-window formula; the
nonnegativity part of the claim survives: whenever it yields a value (it is
NaN when only one weekly bucket exists), that value is nonnegative. -/
theorem c5_consistency_nonneg (transfers : List Transfer) (v : ℚ)
    (h : activity_consistency transfers = some v) : 0 ≤ v := by
  unfold activity_consistency at h
  split at h
  · simp only [Option.some.injEq] at h
    exact h ▸ le_rfl
  · dsimp only at h
    split at h
    · exact absurd h (by simp)
    · split at h
      · simp only [Option.some.injEq] at h
        rename_i hm
        exact h ▸ div_nonneg (sqrtQ_nonneg _) (le_of_lt hm)
      · simp only [Option.some.injEq] at h
        exact h ▸ le_rfl

/-- Witness for C5 amended at the two-transfer input with value 0. -/
theorem c5_consistency_nonneg_witness :
    activity_consistency [⟨0, none, "a", "b"⟩, ⟨604800, none, "a", "b"⟩] = some 0 ∧
    0 ≤ (0 : ℚ) := by
  have hc : activity_consistency [⟨0, none, "a", "b"⟩, ⟨604800, none, "a", "b"⟩] = some 0 := by
    have h : weeklyCounts [0, 604800] = [1, 1] := by decide
    simp [activity_consistency, h, listMean, sampleVariance, sqrtQ]
  exact ⟨hc, c5_consistency_nonneg _ 0 hc⟩

/-- C6 (spec-modelled paginator): for a simulated upstream returning N full
pages of 1000 rows and nothing after them, fetch_window fetches at most 10
pages, and reports truncated iff N is at least 10 and window filtering did
not trigger an early stop (no fetchable page holds a row below the window
start). -/
theorem c6_pagination_bound (pages : ℕ → List ℤ) (s e : ℤ) (N : ℕ)
    (hfull : ∀ i, 1 ≤ i → i ≤ N → (pages i).length = PAGE_SIZE)
    (hempty : ∀ i, N < i → pages i = []) :
    ((fetch_window pages s e).2.1 = true ↔
      (10 ≤ N ∧ ∀ i, 1 ≤ i → i ≤ MAX_PAGES → ∀ t ∈ pages i, s ≤ t)) ∧
    (fetch_window pages s e).2.2 ≤ MAX_PAGES := by
  constructor
  · have h := fetchWindowLoop_truncated pages s e N hfull hempty MAX_PAGES 1 [] 0
      (by norm_num) (by omega)
    unfold fetch_window
    rw [h]
    unfold MAX_PAGES
    constructor
    · rintro ⟨hk, hall⟩
      exact ⟨by omega, fun i h1 h2 => hall i h1 (by omega)⟩
    · rintro ⟨hk, hall⟩
      exact ⟨by omega, fun i h1 h2 => hall i h1 (by omega)⟩
  · have := fetchWindowLoop_fetched_le pages s e (List.range' 1 MAX_PAGES) [] 0
    unfold fetch_window
    simp only [List.length_range'] at this
    omega

/-- Witness for C6 at two upstreams with 12 full pages inside window
[0, 0]: with every row at the window start, truncation is reported and at
most 10 pages are fetched; with page 3 holding rows below the window start,
the early stop fires and truncation is not reported despite 12 full pages. -/
theorem c6_pagination_bound_witness :
    (fetch_window (fun i => if i ≤ 12 then List.replicate 1000 (0:ℤ) else []) 0 0).2.1 = true ∧
    (fetch_window (fun i => if i ≤ 12 then List.replicate 1000 (0:ℤ) else []) 0 0).2.2 ≤ MAX_PAGES ∧
    (fetch_window (fun i => if i = 3 then List.replicate 1000 (-1:ℤ)
        else if i ≤ 12 then List.replicate 1000 (0:ℤ) else []) 0 0).2.1 = false := by
  have h1 := c6_pagination_bound
    (fun i => if i ≤ 12 then List.replicate 1000 (0:ℤ) else []) 0 0 12
    (by
      intro i hi1 hi2
      dsimp only
      rw [if_pos hi2, List.length_replicate]
      rfl)
    (by
      intro i hi
      dsimp only
      rw [if_neg (by omega)])
  have h2 := c6_pagination_bound
    (fun i => if i = 3 then List.replicate 1000 (-1:ℤ)
      else if i ≤ 12 then List.replicate 1000 (0:ℤ) else []) 0 0 12
    (by
      intro i hi1 hi2
      dsimp only
      by_cases h3 : i = 3
      · rw [if_pos h3, List.length_replicate]
        rfl
      · rw [if_neg h3, if_pos hi2, List.length_replicate]
        rfl)
    (by
      intro i hi
      dsimp only
      rw [if_neg (by omega), if_neg (by omega)])
  refine ⟨?_, h1.2, ?_⟩
  · refine h1.1.mpr ⟨by norm_num, ?_⟩
    intro i hi1 hi2 t ht
    dsimp only at ht
    rw [if_pos (show i ≤ 12 by
      have hmp : MAX_PAGES = 10 := rfl
      omega)] at ht
    have := List.eq_of_mem_replicate ht
    omega
  · have hne : (fetch_window (fun i => if i = 3 then List.replicate 1000 (-1:ℤ)
        else if i ≤ 12 then List.replicate 1000 (0:ℤ) else []) 0 0).2.1 ≠ true := by
      intro hcontra
      have hall := (h2.1.mp hcontra).2
      have hmem : (-1 : ℤ) ∈ (fun i => if i = 3 then List.replicate 1000 (-1:ℤ)
          else if i ≤ 12 then List.replicate 1000 (0:ℤ) else []) 3 := by
        dsimp only
        rw [if_pos rfl]
        exact List.mem_replicate.mpr ⟨by norm_num, rfl⟩
      have hle := hall 3 (by norm_num) (by
        have hmp : MAX_PAGES = 10 := rfl
        omega) (-1) hmem
      omega
    cases hb : (fetch_window (fun i => if i = 3 then List.replicate 1000 (-1:ℤ)
        else if i ≤ 12 then List.replicate 1000 (0:ℤ) else []) 0 0).2.1
    · rfl
    · exact absurd hb hne

/-- C7: whenever the pipeline decision is DENY, the returned recommendation
is the override object with zero LTV, null collateral factor and APR, deny
policy and a rationale citing the denial, regardless of the behavioural
adjustments of collateral_recommendation. -/
theorem c7_deny_overrides_recommendation (a : ℤ) (c : ℚ) (tc cp : ℕ) (sr : ℚ)
    (nt it : ℕ) (profile : Option String)
    (h : (compute_wallet_result_core a c tc cp sr nt it profile).1.status = "DENY") :
    (compute_wallet_result_core a c tc cp sr nt it profile).2
      = denyOverrideRecommendation profile := by
  dsimp only [compute_wallet_result_core] at h ⊢
  rw [if_pos h]

/-- Witness for C7 at a concrete denied input (age 0). -/
theorem c7_deny_overrides_recommendation_witness :
    (compute_wallet_result_core 0 0 5 0 0 0 0 (some "aave")).2
      = denyOverrideRecommendation (some "aave") := by
  apply c7_deny_overrides_recommendation
  decide

/-- C8: holding every other feature fixed, increasing unique_counterparties
never decreases the score returned by risk_score. -/
theorem c8_score_monotone_counterparties (a : ℤ) (c : ℚ) (tc : ℕ)
    {c1 c2 : ℕ} (sr : ℚ) (nt it : ℕ) (h : c1 ≤ c2) :
    risk_score a c tc c1 sr nt it ≤ risk_score a c tc c2 sr nt it := by
  unfold risk_score
  by_cases hg : a < 30 ∨ tc = 0
  · rw [if_pos hg, if_pos hg]
  · rw [if_neg hg, if_neg hg]
    have := cpPoints_mono h
    exact min_le_min (by linarith) le_rfl

/-- Witness for C8 across the 10-to-50 counterparty bucket boundary. -/
theorem c8_score_monotone_counterparties_witness :
    risk_score 400 0 7 5 0 0 0 ≤ risk_score 400 0 7 60 0 0 0 :=
  c8_score_monotone_counterparties 400 0 7 0 0 0 (by norm_num : (5:ℕ) ≤ 60)

/-- C9: every per-metric trajectory delta equals the percentage change when
the previous value is nonzero and is exactly 0 when the previous value is
zero, for each of the five tracked metrics. -/
theorem c9_trajectory_deltas (curr prev : TrajSnapshot) :
    ((compute_trajectory curr prev).deltas.tx_count
        = if prev.tx_count = 0 then 0
          else (curr.tx_count - prev.tx_count) / prev.tx_count) ∧
    ((compute_trajectory curr prev).deltas.stablecoin_ratio
        = if prev.stablecoin_ratio = 0 then 0
          else (curr.stablecoin_ratio - prev.stablecoin_ratio) / prev.stablecoin_ratio) ∧
    ((compute_trajectory curr prev).deltas.unique_counterparties
        = if prev.unique_counterparties = 0 then 0
          else (curr.unique_counterparties - prev.unique_counterparties) / prev.unique_counterparties) ∧
    ((compute_trajectory curr prev).deltas.token_diversity
        = if prev.token_diversity = 0 then 0
          else (curr.token_diversity - prev.token_diversity) / prev.token_diversity) ∧
    ((compute_trajectory curr prev).deltas.protocol_interactions
        = if prev.protocol_interactions = 0 then 0
          else (curr.protocol_interactions - prev.protocol_interactions) / prev.protocol_interactions) :=
  ⟨rfl, rfl, rfl, rfl, rfl⟩

/-- C10: for a missing, empty or unknown (after lowercasing) profile name,
collateral_recommendation is total and falls back to the conservative
profile, returning the conservative tier-specific base collateral factor
and APR. -/
theorem c10_profile_fallback (profile : Option String) (score : ℤ) (tier : Tier)
    (c sr : ℚ) (nt it : ℕ)
    (h : profile = none ∨ profile = some "" ∨
      (PROFILES.lookup (strToLower (profile.getD ""))).isNone = true) :
    (collateral_recommendation score tier c sr nt it profile).profile
        = some "conservative" ∧
    (collateral_recommendation score tier c sr nt it profile).collateral_factor
        = some (baseOf "conservative" tier).collateral_factor ∧
    (collateral_recommendation score tier c sr nt it profile).suggested_interest_rate_apr
        = some (baseOf "conservative" tier).apr := by
  have hres := resolveProfile_fallback profile h
  dsimp only [collateral_recommendation]
  rw [hres]
  exact ⟨rfl, rfl, rfl⟩

/-- Witness for C10 at an unknown mixed-case profile name. -/
theorem c10_profile_fallback_witness :
    (collateral_recommendation 80 Tier.LOW 0 0 0 0 (some "Bogus")).profile
        = some "conservative" ∧
    (collateral_recommendation 80 Tier.LOW 0 0 0 0 (some "Bogus")).collateral_factor
        = some (baseOf "conservative" Tier.LOW).collateral_factor ∧
    (collateral_recommendation 80 Tier.LOW 0 0 0 0 (some "Bogus")).suggested_interest_rate_apr
        = some (baseOf "conservative" Tier.LOW).apr :=
  c10_profile_fallback (some "Bogus") 80 Tier.LOW 0 0 0 0 (Or.inr (Or.inr (by decide)))
